import Mathlib

set_option maxHeartbeats 1000000

/-!
Verification of the time-capsule core (repository `0xEgao/rust_apis`,
crate `time-capsule`).

The sources contain `src/main.rs` (process bootstrap, connection pool,
routing) and `src/config.rs` (configuration).  The modules `db`, `dtos`,
`error` and `handler` that `main.rs` declares are not present in the
sources, so the Capsule Store and Capsule Service below are modelled from
the specification; the pool options, the route table and `Config::init`
are embedded directly from the source files.
-/

/-- Modelled from the spec: the Capsule entity (the crate's `dtos` module is
absent from the sources).  Fields follow the spec's data model §3, with
timestamps as integers. -/
structure Capsule where
  internal_id : Nat
  public_id : String
  title : String
  content : String
  unlock_at : Int
  created_at : Int
deriving DecidableEq

/-- Modelled from the spec: the closed error taxonomy of §7 (the crate's
`error` module is absent from the sources). -/
inductive CapsuleError where
  | ValidationFailed (field reason : String)
  | NotFound
  | Conflict
  | Unavailable
deriving DecidableEq

/-- Modelled from the spec: the locked-state content marker; its exact
representation is left to the implementer by §9, so any fixed string works. -/
def lockedMarker : String := "LOCKED"

/-- Modelled from the spec: the time-lock rule of §4.2 — before `unlock_at`
the content is replaced by the locked marker, all other fields kept; at or
after `unlock_at` the capsule is returned unmodified. -/
def applyTimeLock (now : Int) (c : Capsule) : Capsule :=
  if now < c.unlock_at then { c with content := lockedMarker } else c

/-- Modelled from the spec: the Capsule Store state — the persisted rows plus
the backend's sequential `internal_id` counter (the crate's `db` module is
absent from the sources). -/
structure Store where
  rows : List Capsule
  next_id : Nat
deriving DecidableEq

/-- The store holding no rows. -/
def emptyStore : Store := ⟨[], 1⟩

/-- Modelled from the spec: `insert` of §4.1 — persists a new row with
`created_at` set to the current time and returns the full stored entity;
fails with `Conflict` when the `public_id` collides with an existing row
(the unique constraint of §6). -/
def Store.insert (s : Store) (pid title content : String) (unlock_at now : Int) :
    Except CapsuleError (Store × Capsule) :=
  if s.rows.any (fun r => r.public_id = pid) then
    .error CapsuleError.Conflict
  else
    let cap : Capsule := ⟨s.next_id, pid, title, content, unlock_at, now⟩
    .ok (⟨s.rows ++ [cap], s.next_id + 1⟩, cap)

/-- Modelled from the spec: `get_by_public_id` of §4.1 — exact-match lookup,
`NotFound` when no row matches. -/
def Store.get_by_public_id (s : Store) (pid : String) : Except CapsuleError Capsule :=
  match s.rows.find? (fun r => r.public_id = pid) with
  | some c => .ok c
  | none => .error CapsuleError.NotFound

/-- Insert a capsule into a list kept in `created_at`-descending order. -/
def insertDesc (c : Capsule) : List Capsule → List Capsule
  | [] => [c]
  | x :: xs => if x.created_at ≤ c.created_at then c :: x :: xs else x :: insertDesc c xs

/-- Sort a list of capsules by `created_at` descending (newest first). -/
def sortDesc : List Capsule → List Capsule
  | [] => []
  | x :: xs => insertDesc x (sortDesc xs)

/-- Modelled from the spec: `list` of §4.1 — rows ordered by `created_at`
descending (newest first) with bounded pagination via `limit` and `offset`;
an empty page yields the empty sequence, never an error. -/
def Store.list (s : Store) (limit offset : Nat) : List Capsule :=
  ((sortDesc s.rows).drop offset).take limit

/-- Modelled from the spec: `create_capsule` of §4.2, instrumented with the
number of Store `insert` calls it performs.  `gen` models the Service's
high-entropy public-identifier generator, indexed by attempt number.
Validation failures make no Store call; a first-attempt `Conflict` is
retried exactly once with a freshly generated identifier and the second
attempt's outcome is surfaced unchanged. -/
def create_capsule_core (s : Store) (gen : Nat → String) (title content : String)
    (unlock_at now : Int) : Except CapsuleError (Store × Capsule) × Nat :=
  if title = "" then
    (.error (CapsuleError.ValidationFailed "title" "must be non-empty"), 0)
  else if content = "" then
    (.error (CapsuleError.ValidationFailed "content" "must be non-empty"), 0)
  else if unlock_at ≤ now then
    (.error (CapsuleError.ValidationFailed "unlock_at" "must be strictly in the future"), 0)
  else
    match s.insert (gen 0) title content unlock_at now with
    | Except.error CapsuleError.Conflict =>
        (s.insert (gen 1) title content unlock_at now, 2)
    | Except.error e => (.error e, 1)
    | Except.ok r => (.ok r, 1)

/-- Modelled from the spec: `create_capsule` of §4.2 (result component). -/
def create_capsule (s : Store) (gen : Nat → String) (title content : String)
    (unlock_at now : Int) : Except CapsuleError (Store × Capsule) :=
  (create_capsule_core s gen title content unlock_at now).1

/-- Number of Store `insert` calls performed by one `create_capsule` run. -/
def insertCalls (s : Store) (gen : Nat → String) (title content : String)
    (unlock_at now : Int) : Nat :=
  (create_capsule_core s gen title content unlock_at now).2

/-- Modelled from the spec: `get_capsule` of §4.2 — delegate to the Store's
lookup, propagate errors unchanged, apply the time-lock rule to a hit. -/
def get_capsule (s : Store) (now : Int) (pid : String) : Except CapsuleError Capsule :=
  match s.get_by_public_id pid with
  | Except.ok c => .ok (applyTimeLock now c)
  | Except.error e => .error e

/-- Modelled from the spec: `list_capsules` of §4.2 — delegate to the Store's
`list` and apply the time-lock rule independently to every item. -/
def list_capsules (s : Store) (now : Int) (limit offset : Nat) : List Capsule :=
  (s.list limit offset).map (applyTimeLock now)

/-- HTTP methods named in `src/main.rs`. -/
inductive HttpMethod where
  | GET | POST | PUT | DELETE | PATCH
deriving DecidableEq

/-- A route of the axum router: path template and method. -/
structure Route where
  path : String
  method : HttpMethod
deriving DecidableEq

/-- The route table built in `src/main.rs` (`Router::new().route(...)`,
lines 82–87): POST `/create`, GET `/capsules`, GET `/capsule/:public_id`. -/
def appRoutes : List Route :=
  [⟨"/create", HttpMethod.POST⟩,
   ⟨"/capsules", HttpMethod.GET⟩,
   ⟨"/capsule/:public_id", HttpMethod.GET⟩]

/-- The CORS allow-list of methods from `src/main.rs` (line 75). -/
def corsAllowMethods : List HttpMethod :=
  [HttpMethod.GET, HttpMethod.POST, HttpMethod.PUT]

/-- The connection-pool options set on `PgPoolOptions` in `src/main.rs`
(lines 43–54), durations in seconds. -/
structure PoolOptions where
  max_connections : Nat
  min_connections : Nat
  idle_timeout_secs : Nat
  max_lifetime_secs : Nat
deriving DecidableEq

/-- The pool configuration from `src/main.rs`: `max_connections(5)`,
`min_connections(1)`, `idle_timeout(30s)`, `max_lifetime(500s)`. -/
def pgPoolOptions : PoolOptions :=
  { max_connections := 5
    min_connections := 1
    idle_timeout_secs := 30
    max_lifetime_secs := 500 }

/-- The `Config` struct of `src/config.rs`. -/
structure Config where
  database_url : String
  port : Nat
deriving DecidableEq

/-- `Config::init` of `src/config.rs`: reads `DATABASE_URL` from the process
environment (modelled as a partial map), panics when it is unset (modelled
as `none`), and always sets `port` to the literal `4000`. -/
def Config.init (env : String → Option String) : Option Config :=
  match env "DATABASE_URL" with
  | some url => some { database_url := url, port := 4000 }
  | none => none

/-! ## Helper lemmas -/

/-- Membership in the result of `insertDesc`. -/
theorem mem_insertDesc {a c : Capsule} {l : List Capsule} :
    a ∈ insertDesc c l ↔ a = c ∨ a ∈ l := by
  induction l with
  | nil => simp [insertDesc]
  | cons x xs ih =>
      by_cases h : x.created_at ≤ c.created_at
      · simp [insertDesc, h]
      · simp [insertDesc, h, ih]
        tauto

/-- `insertDesc` preserves descending `created_at` order. -/
theorem insertDesc_pairwise {c : Capsule} {l : List Capsule}
    (hl : l.Pairwise (fun a b => b.created_at ≤ a.created_at)) :
    (insertDesc c l).Pairwise (fun a b => b.created_at ≤ a.created_at) := by
  induction l with
  | nil => simp [insertDesc]
  | cons x xs ih =>
      rcases List.pairwise_cons.1 hl with ⟨hx, hxs⟩
      by_cases h : x.created_at ≤ c.created_at
      · simp only [insertDesc, if_pos h]
        refine List.pairwise_cons.2 ⟨?_, hl⟩
        intro b hb
        rcases List.mem_cons.1 hb with rfl | hb
        · exact h
        · exact le_trans (hx b hb) h
      · simp only [insertDesc, if_neg h]
        refine List.pairwise_cons.2 ⟨?_, ih hxs⟩
        intro b hb
        rcases mem_insertDesc.1 hb with rfl | hb
        · exact le_of_lt (lt_of_not_le h)
        · exact hx b hb

/-- `sortDesc` produces a list sorted by `created_at` descending. -/
theorem sortDesc_pairwise (l : List Capsule) :
    (sortDesc l).Pairwise (fun a b => b.created_at ≤ a.created_at) := by
  induction l with
  | nil => simp [sortDesc]
  | cons x xs ih => exact insertDesc_pairwise ih

/-- A found row satisfies the lookup predicate and is a stored row. -/
theorem get_by_public_id_ok {s : Store} {pid : String} {c : Capsule}
    (h : s.get_by_public_id pid = .ok c) : c ∈ s.rows ∧ c.public_id = pid := by
  unfold Store.get_by_public_id at h
  cases hf : s.rows.find? (fun r => r.public_id = pid) with
  | none => rw [hf] at h; cases h
  | some d =>
      rw [hf] at h
      cases h
      refine ⟨List.mem_of_find?_eq_some hf, ?_⟩
      have := List.find?_some hf
      exact of_decide_eq_true this

/-- The successful-insert characterisation: no collision, row appended. -/
theorem insert_ok_iff {s : Store} {pid title content : String} {unlock_at now : Int} :
    (¬ ∃ r ∈ s.rows, r.public_id = pid) →
    s.insert pid title content unlock_at now =
      .ok (⟨s.rows ++ [⟨s.next_id, pid, title, content, unlock_at, now⟩], s.next_id + 1⟩,
           ⟨s.next_id, pid, title, content, unlock_at, now⟩) := by
  intro hno
  unfold Store.insert
  have : s.rows.any (fun r => r.public_id = pid) = false := by
    rw [List.any_eq_false]
    intro r hr
    simp only [decide_eq_true_eq] at *
    exact fun hpe => hno ⟨r, hr, hpe⟩
  simp [this]

/-- The colliding-insert characterisation: a collision conflicts. -/
theorem insert_conflict {s : Store} {pid title content : String} {unlock_at now : Int}
    (hcol : ∃ r ∈ s.rows, r.public_id = pid) :
    s.insert pid title content unlock_at now = .error CapsuleError.Conflict := by
  unfold Store.insert
  have : s.rows.any (fun r => r.public_id = pid) = true := by
    rw [List.any_eq_true]
    rcases hcol with ⟨r, hr, hpe⟩
    exact ⟨r, hr, decide_eq_true hpe⟩
  simp [this]

/-! ## Demo values for witnesses -/

/-- A concrete capsule used by witnesses: unlocks at time 10, created at 0. -/
def demoCapsule : Capsule := ⟨1, "pid1", "t", "secret", 10, 0⟩

/-- A concrete one-row store used by witnesses. -/
def demoStore : Store := ⟨[demoCapsule], 2⟩

/-- A concrete environment map used by witnesses. -/
def demoEnv : String → Option String :=
  fun k => if k = "DATABASE_URL" then some "postgres://demo" else none

/-! ## Claim theorems -/

/-- Claim C1: for every stored capsule, `get_capsule` applies the time-lock
rule — before `unlock_at` the returned capsule has its content replaced by
the locked marker with `unlock_at` (and every other field) intact; at or
after `unlock_at` the capsule is returned unmodified. -/
theorem c1_get_capsule_time_lock (s : Store) (now : Int) (pid : String) (c : Capsule)
    (h : s.get_by_public_id pid = .ok c) :
    (now < c.unlock_at →
      get_capsule s now pid = .ok { c with content := lockedMarker }) ∧
    (c.unlock_at ≤ now → get_capsule s now pid = .ok c) := by
  constructor
  · intro hlt
    simp [get_capsule, h, applyTimeLock, hlt]
  · intro hge
    simp [get_capsule, h, applyTimeLock, not_lt.2 hge]

/-- Witness for C1 at a concrete store and read times on both sides of
`unlock_at`. -/
theorem c1_get_capsule_time_lock_witness :
    demoStore.get_by_public_id "pid1" = .ok demoCapsule ∧
    get_capsule demoStore 5 "pid1" = .ok { demoCapsule with content := lockedMarker } ∧
    get_capsule demoStore 10 "pid1" = .ok demoCapsule := by
  refine ⟨rfl, ?_, ?_⟩
  · exact (c1_get_capsule_time_lock demoStore 5 "pid1" demoCapsule rfl).1 (by decide)
  · exact (c1_get_capsule_time_lock demoStore 10 "pid1" demoCapsule rfl).2 (by decide)

/-- Claim C2: `list_capsules` applies the time-lock rule independently to
every item of the returned sequence, and the time-lock rule changes only
the `content` field — to the locked marker while locked, back to the stored
content once `unlock_at` has passed. -/
theorem c2_list_time_lock (s : Store) (now : Int) (limit offset : Nat) :
    list_capsules s now limit offset = (s.list limit offset).map (applyTimeLock now) ∧
    (∀ c : Capsule, now < c.unlock_at →
      applyTimeLock now c = { c with content := lockedMarker }) ∧
    (∀ c : Capsule, c.unlock_at ≤ now → applyTimeLock now c = c) ∧
    (∀ c : Capsule, (applyTimeLock now c).public_id = c.public_id ∧
      (applyTimeLock now c).title = c.title ∧
      (applyTimeLock now c).unlock_at = c.unlock_at ∧
      (applyTimeLock now c).created_at = c.created_at ∧
      (applyTimeLock now c).internal_id = c.internal_id) := by
  refine ⟨rfl, ?_, ?_, ?_⟩
  · intro c h; simp [applyTimeLock, h]
  · intro c h; simp [applyTimeLock, not_lt.2 h]
  · intro c; unfold applyTimeLock; split <;> simp

/-- Witness for C2 at a concrete store: the listing redacts the locked item
before `unlock_at` and shows it verbatim afterwards. -/
theorem c2_list_time_lock_witness :
    list_capsules demoStore 5 10 0 = [{ demoCapsule with content := lockedMarker }] ∧
    list_capsules demoStore 10 10 0 = [demoCapsule] := by
  have h5 := c2_list_time_lock demoStore 5 10 0
  have h10 := c2_list_time_lock demoStore 10 10 0
  constructor
  · rw [h5.1]
    have : demoStore.list 10 0 = [demoCapsule] := rfl
    rw [this, List.map_singleton, h5.2.1 demoCapsule (by decide)]
  · rw [h10.1]
    have : demoStore.list 10 0 = [demoCapsule] := rfl
    rw [this, List.map_singleton, h10.2.2.1 demoCapsule (by decide)]

/-- Claim C6: `get_capsule` for a public identifier matching no stored row
fails with `NotFound`, and the error is exactly the Store's `NotFound`,
propagated unchanged. -/
theorem c6_get_not_found (s : Store) (now : Int) (pid : String)
    (h : ∀ c ∈ s.rows, c.public_id ≠ pid) :
    get_capsule s now pid = .error CapsuleError.NotFound ∧
    s.get_by_public_id pid = .error CapsuleError.NotFound := by
  have hf : s.rows.find? (fun r => r.public_id = pid) = none := by
    rw [List.find?_eq_none]
    intro r hr
    simpa using h r hr
  exact ⟨by simp [get_capsule, Store.get_by_public_id, hf],
         by simp [Store.get_by_public_id, hf]⟩

/-- Witness for C6 at a concrete store and a never-created identifier. -/
theorem c6_get_not_found_witness :
    get_capsule demoStore 5 "nope" = .error CapsuleError.NotFound :=
  (c6_get_not_found demoStore 5 "nope" (by decide)).1

/-- Claim C8: the router of `main.rs` exposes exactly three operations —
POST `/create`, GET `/capsules` and GET `/capsule/:public_id` — and no
route carries an update (PUT/PATCH) or delete (DELETE) method, so no
update or delete operation exists. -/
theorem c8_three_routes_no_update_delete :
    appRoutes.length = 3 ∧
    appRoutes = [⟨"/create", HttpMethod.POST⟩, ⟨"/capsules", HttpMethod.GET⟩,
                 ⟨"/capsule/:public_id", HttpMethod.GET⟩] ∧
    (∀ r ∈ appRoutes, r.method = HttpMethod.GET ∨ r.method = HttpMethod.POST) ∧
    (∀ r ∈ appRoutes, r.method ≠ HttpMethod.DELETE ∧ r.method ≠ HttpMethod.PUT ∧
      r.method ≠ HttpMethod.PATCH) := by
  refine ⟨rfl, rfl, ?_, ?_⟩ <;> decide

/-- Claim C9: the connection pool of `main.rs` is bounded, with
`max_connections = 5`, `min_connections = 1`, a 30-second idle timeout and
a 500-second maximum lifetime per connection. -/
theorem c9_pool_bounded :
    pgPoolOptions.max_connections = 5 ∧ pgPoolOptions.min_connections = 1 ∧
    pgPoolOptions.idle_timeout_secs = 30 ∧ pgPoolOptions.max_lifetime_secs = 500 :=
  ⟨rfl, rfl, rfl, rfl⟩

/-- Claim C10: `Config::init` returns `port = 4000` regardless of the
environment, copies `DATABASE_URL` into `database_url`, and fails (panics)
when `DATABASE_URL` is unset. -/
theorem c10_config_init (env : String → Option String) :
    (∀ url, env "DATABASE_URL" = some url →
      Config.init env = some { database_url := url, port := 4000 }) ∧
    (env "DATABASE_URL" = none → Config.init env = none) ∧
    (∀ cfg, Config.init env = some cfg → cfg.port = 4000) := by
  refine ⟨?_, ?_, ?_⟩
  · intro url h; simp [Config.init, h]
  · intro h; simp [Config.init, h]
  · intro cfg h
    unfold Config.init at h
    cases he : env "DATABASE_URL" with
    | none => rw [he] at h; cases h
    | some url => rw [he] at h; cases h; rfl

/-- Witness for C10 at a concrete environment with `DATABASE_URL` set. -/
theorem c10_config_init_witness :
    Config.init demoEnv = some { database_url := "postgres://demo", port := 4000 } :=
  (c10_config_init demoEnv).1 "postgres://demo" rfl

/-- On validation success the creation reduces to the insert-retry match. -/
theorem create_core_valid (s : Store) (gen : Nat → String) (title content : String)
    (unlock_at now : Int) (ht : title ≠ "") (hc : content ≠ "") (hu : ¬ unlock_at ≤ now) :
    create_capsule_core s gen title content unlock_at now =
      match s.insert (gen 0) title content unlock_at now with
      | Except.error CapsuleError.Conflict =>
          (s.insert (gen 1) title content unlock_at now, 2)
      | Except.error e => (.error e, 1)
      | Except.ok r => (.ok r, 1) := by
  unfold create_capsule_core
  rw [if_neg ht, if_neg hc, if_neg hu]

/-- Any successful creation appended one freshly generated, non-colliding row. -/
theorem create_ok_shape {s : Store} {gen : Nat → String} {title content : String}
    {unlock_at now : Int} {s2 : Store} {cap : Capsule}
    (hok : create_capsule s gen title content unlock_at now = .ok (s2, cap)) :
    ∃ pid, (pid = gen 0 ∨ pid = gen 1) ∧
      s.rows.any (fun r => r.public_id = pid) = false ∧
      cap = ⟨s.next_id, pid, title, content, unlock_at, now⟩ ∧
      s2.rows = s.rows ++ [cap] ∧ s2.next_id = s.next_id + 1 := by
  unfold create_capsule at hok
  by_cases ht : title = ""
  · simp [create_capsule_core, ht] at hok
  · by_cases hc : content = ""
    · simp [create_capsule_core, ht, hc] at hok
    · by_cases hu : unlock_at ≤ now
      · simp [create_capsule_core, ht, hc, hu] at hok
      · rw [create_core_valid s gen title content unlock_at now ht hc hu] at hok
        cases h0 : s.rows.any (fun r => r.public_id = gen 0) with
        | false =>
            rw [show s.insert (gen 0) title content unlock_at now =
                  .ok (⟨s.rows ++ [⟨s.next_id, gen 0, title, content, unlock_at, now⟩],
                        s.next_id + 1⟩,
                       ⟨s.next_id, gen 0, title, content, unlock_at, now⟩) from by
                simp [Store.insert, h0]] at hok
            simp only [Except.ok.injEq, Prod.mk.injEq] at hok
            obtain ⟨hs, hcap⟩ := hok
            subst hs; subst hcap
            exact ⟨gen 0, Or.inl rfl, h0, rfl, rfl, rfl⟩
        | true =>
            rw [show s.insert (gen 0) title content unlock_at now =
                  .error CapsuleError.Conflict from by simp [Store.insert, h0]] at hok
            cases h1 : s.rows.any (fun r => r.public_id = gen 1) with
            | false =>
                simp only [Store.insert, h1, Bool.false_eq_true, if_false,
                  Except.ok.injEq, Prod.mk.injEq] at hok
                obtain ⟨hs, hcap⟩ := hok
                subst hs; subst hcap
                exact ⟨gen 1, Or.inr rfl, h1, rfl, rfl, rfl⟩
            | true =>
                simp [Store.insert, h1] at hok

/-- Claim C3: a creation whose `unlock_at` is not strictly after the creation
instant fails with `ValidationFailed`, performs zero Store calls, and
persists nothing (no successful result exists, so a subsequent list still
reads the unchanged store). -/
theorem c3_validation_no_store_call (s : Store) (gen : Nat → String)
    (title content : String) (unlock_at now : Int) (h : unlock_at ≤ now) :
    (∃ field reason, create_capsule s gen title content unlock_at now =
      .error (CapsuleError.ValidationFailed field reason)) ∧
    insertCalls s gen title content unlock_at now = 0 ∧
    (∀ s2 cap, create_capsule s gen title content unlock_at now ≠ .ok (s2, cap)) := by
  have hcore : ∃ field reason,
      create_capsule_core s gen title content unlock_at now =
        (.error (CapsuleError.ValidationFailed field reason), 0) := by
    unfold create_capsule_core
    by_cases ht : title = ""
    · exact ⟨"title", "must be non-empty", by rw [if_pos ht]⟩
    · by_cases hc : content = ""
      · exact ⟨"content", "must be non-empty", by rw [if_neg ht, if_pos hc]⟩
      · exact ⟨"unlock_at", "must be strictly in the future",
          by rw [if_neg ht, if_neg hc, if_pos h]⟩
  rcases hcore with ⟨f, r, hc⟩
  refine ⟨⟨f, r, by simp [create_capsule, hc]⟩, by simp [insertCalls, hc], ?_⟩
  intro s2 cap hok
  simp [create_capsule, hc] at hok

/-- Witness for C3: creating with `unlock_at = now` is rejected without any
Store call. -/
theorem c3_validation_no_store_call_witness :
    (∃ field reason, create_capsule emptyStore (fun _ => "w") "T" "C" 5 5 =
      .error (CapsuleError.ValidationFailed field reason)) ∧
    insertCalls emptyStore (fun _ => "w") "T" "C" 5 5 = 0 ∧
    (∀ s2 cap, create_capsule emptyStore (fun _ => "w") "T" "C" 5 5 ≠ .ok (s2, cap)) :=
  c3_validation_no_store_call emptyStore (fun _ => "w") "T" "C" 5 5 (by decide)

/-- Claim C4: successful creations preserve pairwise distinctness of
`public_id` (the created row's identifier collides with no stored row), the
created capsule is stored, and the Store surfaces any `public_id` collision
as a `Conflict` on insert. -/
theorem c4_public_id_unique (s : Store) (gen : Nat → String) (title content : String)
    (unlock_at now : Int) (s2 : Store) (cap : Capsule)
    (hnd : (s.rows.map Capsule.public_id).Nodup)
    (hok : create_capsule s gen title content unlock_at now = .ok (s2, cap)) :
    (s2.rows.map Capsule.public_id).Nodup ∧
    cap ∈ s2.rows ∧
    (∀ pid t2 c2 u2 n2, pid ∈ s.rows.map Capsule.public_id →
      s.insert pid t2 c2 u2 n2 = .error CapsuleError.Conflict) := by
  obtain ⟨pid, _, hany, hcap, hrows, _⟩ := create_ok_shape hok
  have hnotin : pid ∉ s.rows.map Capsule.public_id := by
    rw [List.any_eq_false] at hany
    rw [List.mem_map]
    rintro ⟨r, hr, hpe⟩
    exact absurd (decide_eq_true hpe) (by simpa using hany r hr)
  refine ⟨?_, ?_, ?_⟩
  · rw [hrows, List.map_append]
    rw [List.nodup_append]
    refine ⟨hnd, List.nodup_singleton _, ?_⟩
    intro a ha hb
    simp only [List.map_cons, List.map_nil, List.mem_singleton] at hb
    rw [hb, hcap] at ha
    exact hnotin ha
  · rw [hrows]
    exact List.mem_append_right _ (List.mem_singleton_self _)
  · intro pid2 t2 c2 u2 n2 hmem
    rcases List.mem_map.1 hmem with ⟨r, hr, hpe⟩
    exact insert_conflict ⟨r, hr, hpe⟩

/-- Witness for C4: creating a second capsule with a fresh identifier keeps
the stored `public_id` values pairwise distinct. -/
theorem c4_public_id_unique_witness :
    ((Store.mk [demoCapsule, Capsule.mk 2 "pid2" "T" "C" 10 0] 3).rows.map
      Capsule.public_id).Nodup ∧
    Capsule.mk 2 "pid2" "T" "C" 10 0 ∈
      (Store.mk [demoCapsule, Capsule.mk 2 "pid2" "T" "C" 10 0] 3).rows := by
  have h := c4_public_id_unique demoStore (fun _ => "pid2") "T" "C" 10 0
    (Store.mk [demoCapsule, Capsule.mk 2 "pid2" "T" "C" 10 0] 3)
    (Capsule.mk 2 "pid2" "T" "C" 10 0) (by decide) rfl
  exact ⟨h.1, h.2.1⟩

/-- Claim C7: when the first insert attempt collides, the creation is retried
exactly once with the freshly generated second identifier, whose outcome is
surfaced unchanged — success with the fresh identifier when it is free,
`Conflict` only when the collision recurs. -/
theorem c7_conflict_retry_once (s : Store) (gen : Nat → String) (title content : String)
    (unlock_at now : Int) (ht : title ≠ "") (hc : content ≠ "") (hu : ¬ unlock_at ≤ now)
    (h0 : ∃ r ∈ s.rows, r.public_id = gen 0) :
    insertCalls s gen title content unlock_at now = 2 ∧
    create_capsule s gen title content unlock_at now =
      s.insert (gen 1) title content unlock_at now ∧
    ((¬ ∃ r ∈ s.rows, r.public_id = gen 1) →
      ∃ s2 cap, create_capsule s gen title content unlock_at now = .ok (s2, cap) ∧
        cap.public_id = gen 1) ∧
    ((∃ r ∈ s.rows, r.public_id = gen 1) →
      create_capsule s gen title content unlock_at now = .error CapsuleError.Conflict) := by
  have hcore : create_capsule_core s gen title content unlock_at now =
      (s.insert (gen 1) title content unlock_at now, 2) := by
    rw [create_core_valid s gen title content unlock_at now ht hc hu,
        insert_conflict h0]
  refine ⟨by simp [insertCalls, hcore], by simp [create_capsule, hcore], ?_, ?_⟩
  · intro h1
    refine ⟨⟨s.rows ++ [⟨s.next_id, gen 1, title, content, unlock_at, now⟩], s.next_id + 1⟩,
            ⟨s.next_id, gen 1, title, content, unlock_at, now⟩, ?_, rfl⟩
    rw [show create_capsule s gen title content unlock_at now =
          s.insert (gen 1) title content unlock_at now from by simp [create_capsule, hcore]]
    exact insert_ok_iff h1
  · intro h1
    rw [show create_capsule s gen title content unlock_at now =
          s.insert (gen 1) title content unlock_at now from by simp [create_capsule, hcore]]
    exact insert_conflict h1

/-- Witness for C7: a store already holding `pid1`, a generator whose first
identifier collides and whose second is fresh — two insert calls, success
with the fresh identifier. -/
theorem c7_conflict_retry_once_witness :
    insertCalls demoStore (fun n => if n = 0 then "pid1" else "fresh") "T" "C" 10 0 = 2 ∧
    (∃ s2 cap, create_capsule demoStore (fun n => if n = 0 then "pid1" else "fresh")
        "T" "C" 10 0 = .ok (s2, cap) ∧ cap.public_id = "fresh") := by
  have h := c7_conflict_retry_once demoStore (fun n => if n = 0 then "pid1" else "fresh")
    "T" "C" 10 0 (by decide) (by decide) (by decide) ⟨demoCapsule, by decide, by decide⟩
  exact ⟨h.1, h.2.2.1 (by decide)⟩

/-- Claim C5: listings are ordered by `created_at` descending, paginated by
`limit` and `offset` over the sorted rows, yield the empty sequence (not an
error) on an empty page, and after creating capsules A, B, C in that order
`list_capsules` with limit 2 and offset 0 returns exactly [C, B]. -/
theorem c5_list_order_pagination :
    (∀ s : Store, (sortDesc s.rows).Pairwise (fun a b => b.created_at ≤ a.created_at)) ∧
    (∀ (s : Store) (limit offset : Nat),
      s.list limit offset = ((sortDesc s.rows).drop offset).take limit) ∧
    (∀ (now : Int) (limit offset : Nat), list_capsules emptyStore now limit offset = []) ∧
    (∃ s1 s2 s3 : Store, ∃ cA cB cC : Capsule,
      create_capsule emptyStore (fun _ => "pidA") "A" "a" 2 1 = .ok (s1, cA) ∧
      create_capsule s1 (fun _ => "pidB") "B" "b" 3 2 = .ok (s2, cB) ∧
      create_capsule s2 (fun _ => "pidC") "C" "c" 4 3 = .ok (s3, cC) ∧
      list_capsules s3 100 2 0 = [cC, cB]) := by
  refine ⟨fun s => sortDesc_pairwise s.rows,
          fun s limit offset => rfl,
          fun now limit offset => by simp [list_capsules, Store.list, emptyStore, sortDesc],
          ⟨⟨[⟨1, "pidA", "A", "a", 2, 1⟩], 2⟩,
           ⟨[⟨1, "pidA", "A", "a", 2, 1⟩, ⟨2, "pidB", "B", "b", 3, 2⟩], 3⟩,
           ⟨[⟨1, "pidA", "A", "a", 2, 1⟩, ⟨2, "pidB", "B", "b", 3, 2⟩,
             ⟨3, "pidC", "C", "c", 4, 3⟩], 4⟩,
           ⟨1, "pidA", "A", "a", 2, 1⟩, ⟨2, "pidB", "B", "b", 3, 2⟩,
           ⟨3, "pidC", "C", "c", 4, 3⟩,
           rfl, rfl, rfl, rfl⟩⟩
